import Mathlib

/-
  Verification of the real-time connection hub of the repository
  (src/apps/backend/ws/server.js, src/apps/backend/routes/push.js,
  src/apps/frontend/src/context/AppContext.jsx), embedded shallowly.

  Times are modelled as integers (milliseconds, Date.now style); JSON
  objects as association lists of string pairs; the Math.random draw of the
  client reconnector as a rational number r with 0 <= r <= 1.
-/

namespace FaceWS

/-- One entry of the `clients` Map of the hub (server.js lines 19-26):
per-connection metadata keyed by the generated client id. -/
structure Client where
  clientId : String
  ip : String
  userAgent : String
  connectedAt : Int
  lastActivity : Int
  isAlive : Bool
  deriving DecidableEq

/-- Transport-level socket state seen by the 30s heartbeat sweep: the
ws.isAlive flag armed on accept (line 46) and re-armed by the transport
pong handler (lines 47-54), and whether ws.terminate() has been called. -/
structure WS where
  isAlive : Bool
  terminated : Bool
  deriving DecidableEq

/-- The transport pong handler, ws.on with event pong (server.js lines
47-54): re-arms the socket liveness flag. -/
def onPongWS (w : WS) : WS :=
  { w with isAlive := true }

/-- The transport pong handler effect on the clients-Map entry (server.js
lines 49-53): sets the entry liveness flag and refreshes lastActivity. -/
def onPongEntry (now : Int) (c : Client) : Client :=
  { c with isAlive := true, lastActivity := now }

/-- One iteration of the 30s heartbeat interval body for a single socket
(server.js lines 150-159): a socket whose flag is false is terminated; an
alive one has its flag cleared and is sent a transport ping. Returns the
new socket state and whether a ping was sent. Terminated sockets have left
wss.clients and are not visited. -/
def heartbeatSweep (w : WS) : WS × Bool :=
  if w.terminated then (w, false)
  else if w.isAlive = false then ({ w with terminated := true }, false)
  else ({ w with isAlive := false }, true)

/-- The idle threshold of the stale-connection check (server.js line 178):
120000 ms. -/
def staleTimeout : Int := 120000

/-- The staleCheckInterval body (server.js lines 176-202): every entry of
the clients Map whose lastActivity is older than staleTimeout relative to
now is terminated and deleted; the liveness flag is never consulted.
Returns the surviving entries and the evicted entries, in iteration
order. -/
def staleCheckSweep (now : Int) : List Client → List Client × List Client
  | [] => ([], [])
  | c :: rest =>
    let r := staleCheckSweep now rest
    if now - c.lastActivity > staleTimeout then (r.1, c :: r.2)
    else (c :: r.1, r.2)

/-- The WebSocket metrics state of utils/metrics.js (src/unnamed/part_008):
the prom-client gauge ws_connections_current and the monotone counter
ws_connections_total, which the wsMetrics recorder functions mutate. -/
structure Metrics where
  wsConnectionsGauge : Int
  wsConnectionsTotal : Nat
  deriving DecidableEq

/-- wsMetrics.recordDisconnection (part_008): wsConnectionsGauge.dec(),
one gauge decrement per call; the total counter is untouched. -/
def Metrics.recordDisconnection (m : Metrics) : Metrics :=
  { m with wsConnectionsGauge := m.wsConnectionsGauge - 1 }

/-- wsMetrics.recordConnection (part_008): wsConnectionsGauge.inc() and
wsConnectionsTotal.inc(). -/
def Metrics.recordConnection (m : Metrics) : Metrics :=
  { wsConnectionsGauge := m.wsConnectionsGauge + 1
    wsConnectionsTotal := m.wsConnectionsTotal + 1 }

/-- wsMetrics.updateConnectionsGauge (part_008): wsConnectionsGauge.set
to the given current count. -/
def Metrics.updateConnectionsGauge (count : Int) (m : Metrics) : Metrics :=
  { m with wsConnectionsGauge := count }

/-- The hub state the removal paths touch: the clients Map (as a list of
entries) and the metrics counter. -/
structure HubState where
  clients : List Client
  metrics : Metrics
  deriving DecidableEq

/-- Map.delete by client id: removes the entry if present, a no-op if
absent. -/
def removeClient (id : String) (cs : List Client) : List Client :=
  cs.filter (fun c => c.clientId ≠ id)

/-- The close handler, ws.on with event close (server.js lines 109-120):
deletes the Map entry and records a disconnection. -/
def onClose (id : String) (s : HubState) : HubState :=
  { clients := removeClient id s.clients
    metrics := s.metrics.recordDisconnection }

/-- The error handler, ws.on with event error (server.js lines 123-138):
deletes the Map entry, records a disconnection and terminates the socket
(which in turn fires the close handler). -/
def onError (id : String) (s : HubState) : HubState :=
  { clients := removeClient id s.clients
    metrics := s.metrics.recordDisconnection }

/-- A concrete connected client used as counterexample input. -/
def cxClient : Client :=
  { clientId := "c1", ip := "127.0.0.1", userAgent := "UA"
    connectedAt := 0, lastActivity := 0, isAlive := true }

/-- A hub state holding exactly the one client above, gauge at 1 after its
connection was recorded. -/
def cxHub : HubState :=
  { clients := [cxClient]
    metrics := { wsConnectionsGauge := 1, wsConnectionsTotal := 1 } }

/-- The stale sweep partitions the entries by the idle condition: the kept
list is the filter of the fresh entries, the evicted list the filter of the
stale ones. -/
lemma staleCheckSweep_eq (now : Int) (cs : List Client) :
    staleCheckSweep now cs =
      (cs.filter (fun c => decide (now - c.lastActivity ≤ staleTimeout)),
       cs.filter (fun c => decide (staleTimeout < now - c.lastActivity))) := by
  induction cs with
  | nil => rfl
  | cons d rest ih =>
    simp only [staleCheckSweep, ih]
    by_cases hd : staleTimeout < now - d.lastActivity
    · have hd2 : ¬ (now - d.lastActivity ≤ staleTimeout) := not_le.mpr hd
      rw [if_pos hd, List.filter_cons_of_neg, List.filter_cons_of_pos]
      · simpa using hd
      · simpa using hd2
    · have hd2 : now - d.lastActivity ≤ staleTimeout := not_lt.mp hd
      rw [if_neg hd, List.filter_cons_of_pos, List.filter_cons_of_neg]
      · simpa using hd
      · simpa using hd2

/-- C1: a registry entry whose lastActivity is older than the 120s idle
threshold relative to now is terminated and removed by the stale sweep
even though its liveness flag is true. -/
theorem stale_sweep_evicts_idle (now : Int) (cs : List Client) (c : Client)
    (hmem : c ∈ cs) (_halive : c.isAlive = true)
    (hidle : now - c.lastActivity > staleTimeout) :
    c ∉ (staleCheckSweep now cs).1 ∧ c ∈ (staleCheckSweep now cs).2 := by
  rw [staleCheckSweep_eq]
  constructor
  · intro hin
    have := (List.mem_filter.mp hin).2
    simp only [decide_eq_true_eq] at this
    exact absurd hidle (not_lt.mpr this)
  · exact List.mem_filter.mpr ⟨hmem, by simpa using hidle⟩

/-- Witness for C1 at a concrete input: a client idle for 200s with its
liveness flag still true is evicted. -/
theorem stale_sweep_evicts_idle_witness :
    cxClient ∈ [cxClient] ∧ cxClient.isAlive = true ∧
      (200000 : Int) - cxClient.lastActivity > staleTimeout ∧
      (cxClient ∉ (staleCheckSweep 200000 [cxClient]).1 ∧
        cxClient ∈ (staleCheckSweep 200000 [cxClient]).2) :=
  ⟨by decide, by decide, by decide,
    stale_sweep_evicts_idle 200000 [cxClient] cxClient (by decide) (by decide)
      (by decide)⟩

/-- C2: a freshly accepted socket (flag armed true) that never answers a
probe is not terminated by the first heartbeat sweep, which instead clears
its flag and sends a ping; the second consecutive sweep without an
observed pong terminates it. -/
theorem heartbeat_evicts_on_second_sweep (w : WS) (h1 : w.isAlive = true)
    (h2 : w.terminated = false) :
    (heartbeatSweep w).1.terminated = false ∧ (heartbeatSweep w).2 = true ∧
      (heartbeatSweep (heartbeatSweep w).1).1.terminated = true := by
  simp [heartbeatSweep, h1, h2]

/-- Witness for C2 at the concrete post-accept socket state. -/
theorem heartbeat_evicts_on_second_sweep_witness :
    (WS.mk true false).isAlive = true ∧ (WS.mk true false).terminated = false ∧
      ((heartbeatSweep (WS.mk true false)).1.terminated = false ∧
        (heartbeatSweep (WS.mk true false)).2 = true ∧
        (heartbeatSweep (heartbeatSweep (WS.mk true false)).1).1.terminated = true) :=
  ⟨rfl, rfl, heartbeat_evicts_on_second_sweep (WS.mk true false) rfl rfl⟩

/-- C3 counterexample: with one connected client and the connection gauge
at 1, firing the error path and then the close path for the same identity
changes the gauge by 2, not by 1 as the claim states. -/
theorem removal_paths_double_decrement :
    (onClose "c1" (onError "c1" cxHub)).metrics.wsConnectionsGauge =
        cxHub.metrics.wsConnectionsGauge - 2 ∧
      cxHub.metrics.wsConnectionsGauge - 2 ≠
        cxHub.metrics.wsConnectionsGauge - 1 := by
  decide

/-- C3 amended: removal from the registry is idempotent (running the error
path and then the close path for one identity leaves the clients Map
exactly as the close path alone would), but recordDisconnection is called
once per fired handler, so both paths together decrement the connection
gauge by 2. -/
theorem removal_registry_idempotent (s : HubState) (id : String) :
    (onClose id (onError id s)).clients = (onClose id s).clients ∧
      (onClose id (onError id s)).metrics.wsConnectionsGauge =
        s.metrics.wsConnectionsGauge - 2 := by
  refine ⟨?_, ?_⟩
  · simp only [onClose, onError, removeClient, List.filter_filter]
    congr 1
    funext c
    simp [Bool.and_self]
  · simp only [onClose, onError, Metrics.recordDisconnection]
    omega

/-- An inbound frame: either one that JSON.parse rejects, or a parsed
object whose type field is the given string. -/
inductive Frame where
  | malformed : Frame
  | typed : String → Frame
  deriving DecidableEq

/-- The replies the message handler can emit. -/
inductive Reply where
  | pong : Reply
  | acknowledge : Reply
  | invalidFormat : Reply
  deriving DecidableEq

/-- The per-connection state the message handler can touch: the clients
Map entry, the transport liveness flag, and whether the socket is still
open (and hence counted). -/
structure ConnState where
  entry : Client
  wsIsAlive : Bool
  isOpen : Bool
  deriving DecidableEq

/-- The message handler, ws.on with event message (server.js lines
57-106): first refreshes the Map entry lastActivity (lines 60-63, before
parsing), then parses; a parse failure is caught and answered with one
invalid-format error reply; a frame of type ping is answered with a pong
reply; anything else with a generic acknowledge. The handler never closes
the socket, never removes the entry and never touches a liveness flag. -/
def onMessage (now : Int) (f : Frame) (s : ConnState) : ConnState × List Reply :=
  let s2 : ConnState := { s with entry := { s.entry with lastActivity := now } }
  match f with
  | Frame.malformed => (s2, [Reply.invalidFormat])
  | Frame.typed t =>
    if t = "ping" then (s2, [Reply.pong]) else (s2, [Reply.acknowledge])

/-- A concrete connection state whose liveness flags are false and whose
lastActivity is 0, used as counterexample input. -/
def cxConn : ConnState :=
  { entry := { clientId := "c2", ip := "10.0.0.1", userAgent := "UA"
               connectedAt := 0, lastActivity := 0, isAlive := false }
    wsIsAlive := false
    isOpen := true }

/-- C4 counterexample: handling a frame of type ping on a connection whose
liveness flags are false replies with a pong but leaves both flags false,
refuting the claim that the liveness flag is set to true. -/
theorem ping_leaves_liveness_flag_false :
    (onMessage 100 (Frame.typed "ping") cxConn).2 = [Reply.pong] ∧
      (onMessage 100 (Frame.typed "ping") cxConn).1.wsIsAlive = false ∧
      (onMessage 100 (Frame.typed "ping") cxConn).1.entry.isAlive = false := by
  decide

/-- C4 amended: on a frame of type ping the server replies with exactly
one pong (timestamped) on the same connection and refreshes lastActivity,
but leaves the liveness flag unchanged; the flag is set true only by the
transport-level pong handler. -/
theorem ping_reply_updates_activity (now : Int) (s : ConnState) :
    (onMessage now (Frame.typed "ping") s).2 = [Reply.pong] ∧
      (onMessage now (Frame.typed "ping") s).1.entry.lastActivity = now ∧
      (onMessage now (Frame.typed "ping") s).1.wsIsAlive = s.wsIsAlive ∧
      (onMessage now (Frame.typed "ping") s).1.entry.isAlive = s.entry.isAlive ∧
      (onMessage now (Frame.typed "ping") s).1.isOpen = s.isOpen := by
  simp [onMessage]

/-- C5 counterexample: handling a malformed frame at time 5 on a
connection whose lastActivity is 0 changes lastActivity to 5, refuting the
claim that no per-connection state (including the last-activity timestamp)
is changed. -/
theorem malformed_frame_updates_activity :
    (onMessage 5 Frame.malformed cxConn).2 = [Reply.invalidFormat] ∧
      (onMessage 5 Frame.malformed cxConn).1.entry.lastActivity ≠
        cxConn.entry.lastActivity := by
  decide

/-- C5 amended: a frame that fails to parse is answered with exactly one
invalid-format error reply; the connection stays open and counted and no
per-connection state changes except lastActivity, which is refreshed
because the activity touch precedes the parse attempt. -/
theorem malformed_frame_one_error_reply (now : Int) (s : ConnState) :
    (onMessage now Frame.malformed s).2 = [Reply.invalidFormat] ∧
      (onMessage now Frame.malformed s).1.isOpen = s.isOpen ∧
      (onMessage now Frame.malformed s).1.wsIsAlive = s.wsIsAlive ∧
      (onMessage now Frame.malformed s).1.entry.isAlive = s.entry.isAlive ∧
      (onMessage now Frame.malformed s).1.entry.lastActivity = now := by
  simp [onMessage]

/-- WebSocket.OPEN readyState constant. -/
def OPEN : Nat := 1

/-- A socket as seen by the broadcast loop: its readyState, an identifying
tag the optional filter can inspect, and whether its send call throws. -/
structure BClient where
  tag : String
  readyState : Nat
  sendFails : Bool
  deriving DecidableEq

/-- The object spread plus timestamp of the broadcast send (server.js
lines 234-237): the payload fields with the timestamp field set to the
server time. -/
def stampMessage (payload : List (String × String)) (nowIso : String) :
    List (String × String) :=
  payload.filter (fun kv => kv.1 ≠ "timestamp") ++ [("timestamp", nowIso)]

/-- Whether a socket passes the optional broadcast filter (server.js lines
227-230): no filter means every socket passes. -/
def passesFilter (flt : Option (BClient → Bool)) (c : BClient) : Bool :=
  match flt with
  | some f => f c
  | none => true

/-- The broadcast loop body (server.js lines 223-252): iterate the
sockets; skip those the filter rejects and those not OPEN; send the
stamped payload to the rest, counting the sends. The send call is not
wrapped in any error handling, so a throwing send propagates out of the
iteration: the result is the list of deliveries (tag and wire message)
made before any failure, paired with either the returned count or the
escaped exception. -/
def broadcast (payload : List (String × String)) (nowIso : String)
    (flt : Option (BClient → Bool)) :
    List BClient → List (String × List (String × String)) × Except Unit Nat
  | [] => ([], Except.ok 0)
  | c :: rest =>
    if passesFilter flt c = false then broadcast payload nowIso flt rest
    else if c.readyState = OPEN then
      if c.sendFails then ([], Except.error ())
      else
        match broadcast payload nowIso flt rest with
        | (ds, Except.ok n) =>
          ((c.tag, stampMessage payload nowIso) :: ds, Except.ok (n + 1))
        | (ds, Except.error e) =>
          ((c.tag, stampMessage payload nowIso) :: ds, Except.error e)
    else broadcast payload nowIso flt rest

/-- The sockets a broadcast should reach: those passing the filter whose
readyState is OPEN. -/
def deliverable (flt : Option (BClient → Bool)) (cs : List BClient) :
    List BClient :=
  cs.filter (fun c => passesFilter flt c && decide (c.readyState = OPEN))

/-- A failing OPEN socket and two healthy OPEN sockets for the C6
counterexample. -/
def cxFailSock : BClient := { tag := "bad", readyState := 1, sendFails := true }

def cxGoodSock : BClient := { tag := "good", readyState := 1, sendFails := false }

/-- C6 counterexample: with two OPEN sockets and no filter, a send error
on the first is not caught: the exception escapes the broadcast (no count
is returned) and the second socket receives nothing, refuting the claim
that a send error is caught, excluded from the count, and never prevents
delivery to the remaining connections. -/
theorem broadcast_send_error_aborts :
    (broadcast [("event", "match")] "T0" none [cxFailSock, cxGoodSock]).2 =
        Except.error () ∧
      (broadcast [("event", "match")] "T0" none [cxFailSock, cxGoodSock]).1 = [] :=
  ⟨rfl, rfl⟩

/-- C6 amended: when every send succeeds, broadcast sends the payload plus
a server-stamped timestamp to exactly the OPEN sockets satisfying the
filter (every OPEN socket when no filter is given) and returns their
number; but a send error is not caught: it propagates out of the loop and
aborts delivery to the remaining sockets. -/
theorem broadcast_fanout (payload : List (String × String)) (nowIso : String)
    (flt : Option (BClient → Bool)) (cs : List BClient)
    (hok : ∀ c ∈ cs, c.sendFails = false) :
    broadcast payload nowIso flt cs =
      ((deliverable flt cs).map (fun c => (c.tag, stampMessage payload nowIso)),
        Except.ok (deliverable flt cs).length) := by
  induction cs with
  | nil => rfl
  | cons c rest ih =>
    have hc : c.sendFails = false := hok c (List.mem_cons_self _ _)
    have hrest : ∀ x ∈ rest, x.sendFails = false := fun x hx =>
      hok x (List.mem_cons_of_mem _ hx)
    have ih2 := ih hrest
    by_cases hp : passesFilter flt c = true
    · by_cases ho : c.readyState = OPEN
      · have hfc : (passesFilter flt c && decide (c.readyState = OPEN)) = true := by
          simp [hp, ho]
        have hdel : deliverable flt (c :: rest) = c :: deliverable flt rest := by
          simp [deliverable, hfc]
        simp [broadcast, hp, ho, hc, ih2, hdel]
      · have hdel : deliverable flt (c :: rest) = deliverable flt rest := by
          simp [deliverable, ho]
        simp [broadcast, hp, ho, ih2, hdel]
    · have hp2 : passesFilter flt c = false := by
        cases h : passesFilter flt c
        · rfl
        · exact absurd h hp
      have hdel : deliverable flt (c :: rest) = deliverable flt rest := by
        simp [deliverable, hp2]
      simp [broadcast, hp2, ih2, hdel]

/-- Witness for C6 at a concrete input: two healthy OPEN sockets and one
non-OPEN socket. With no filter the broadcast delivers to the two OPEN
sockets and returns 2; with a filter rejecting the tag b it delivers to
one and returns 1. -/
theorem broadcast_fanout_witness :
    (∀ c ∈ [cxGoodSock, BClient.mk "b" 1 false, BClient.mk "c" 3 false],
        c.sendFails = false) ∧
      broadcast [("event", "match")] "T0" none
          [cxGoodSock, BClient.mk "b" 1 false, BClient.mk "c" 3 false] =
        ([("good", [("event", "match"), ("timestamp", "T0")]),
          ("b", [("event", "match"), ("timestamp", "T0")])], Except.ok 2) ∧
      broadcast [("event", "match")] "T0" (some (fun c => c.tag ≠ "b"))
          [cxGoodSock, BClient.mk "b" 1 false, BClient.mk "c" 3 false] =
        ([("good", [("event", "match"), ("timestamp", "T0")])], Except.ok 1) := by
  refine ⟨by decide, ?_, ?_⟩
  · rw [broadcast_fanout _ _ _ _ (by decide)]
    rfl
  · rw [broadcast_fanout _ _ _ _ (by decide)]
    rfl

/-- Maximum number of client reconnection attempts (AppContext.jsx line
30). -/
def maxReconnectAttempts : Nat := 10

/-- getReconnectDelay (AppContext.jsx lines 60-75) with the Math.random
draw modelled as a rational r in the unit interval: the exponential
backoff min(30000, 1000 * 2 ^ attempt) plus jitter of plus or minus 20
percent of it, floored to whole milliseconds. -/
def getReconnectDelay (attempt : Nat) (r : ℚ) : Int :=
  let baseDelay : ℚ := 1000
  let maxDelay : ℚ := 30000
  let exponentialDelay : ℚ := min maxDelay (baseDelay * 2 ^ attempt)
  let jitter : ℚ := exponentialDelay * (1 / 5) * (r * 2 - 1)
  ⌊exponentialDelay + jitter⌋

/-- A close event as delivered to socket.onclose: close code and wasClean
flag. -/
structure CloseEvent where
  code : Nat
  wasClean : Bool
  deriving DecidableEq

/-- The outcome of one run of the socket.onclose handler: the attempt
counter afterwards, the delay of the scheduled reconnect if one was
scheduled, and the resulting status. -/
structure CloseOutcome where
  attempts : Nat
  scheduledDelay : Option Int
  wsStatus : String
  deriving DecidableEq

/-- socket.onclose (AppContext.jsx lines 138-182): sets the status to
disconnected; when attempts-so-far is below the maximum it increments the
attempt counter first and only then computes the backoff delay (so the
delay is computed from the already incremented counter) and schedules a
reconnect after that delay; otherwise it transitions to the failed status.
The close event is logged but none of its fields is ever branched on. -/
def socketOnClose (_ev : CloseEvent) (attempts : Nat) (r : ℚ) : CloseOutcome :=
  if attempts < maxReconnectAttempts then
    { attempts := attempts + 1
      scheduledDelay := some (getReconnectDelay (attempts + 1) r)
      wsStatus := "disconnected" }
  else
    { attempts := attempts, scheduledDelay := none, wsStatus := "failed" }

/-- C7: the onclose handler schedules a backoff reconnect for a clean
close exactly as for an abnormal one: at close code 1000 (normal closure)
with zero attempts-so-far it still increments the counter and schedules a
reconnect, with delay 2000 ms at the median jitter draw. This contradicts
the claim (and the comment inside the handler) that a clean close does not
reconnect. -/
theorem clean_close_still_schedules_reconnect :
    (socketOnClose (CloseEvent.mk 1000 true) 0 (1 / 2)).scheduledDelay =
        some 2000 ∧
      (socketOnClose (CloseEvent.mk 1000 true) 0 (1 / 2)).attempts = 1 ∧
      socketOnClose (CloseEvent.mk 1000 true) 0 (1 / 2) =
        socketOnClose (CloseEvent.mk 1006 false) 0 (1 / 2) := by
  refine ⟨?_, rfl, rfl⟩
  show some (getReconnectDelay 1 (1 / 2)) = some 2000
  norm_num [getReconnectDelay]

/-- C8 counterexample: for the first abnormal close (attempts-so-far 0)
the code computes a 2000 ms delay at the median jitter draw, because the
counter is incremented before the delay computation; the interval the
claim states for n = 0, namely [min(30000, 1000 * 2 ^ 0) * 0.8,
min(30000, 1000 * 2 ^ 0) * 1.2] = [800, 1200], does not contain it. -/
theorem first_backoff_exceeds_claimed_interval :
    (socketOnClose (CloseEvent.mk 1006 false) 0 (1 / 2)).scheduledDelay =
        some 2000 ∧
      ¬ ((2000 : ℚ) ≤ min 30000 (1000 * 2 ^ (0 : Nat)) * (6 / 5)) := by
  constructor
  · show some (getReconnectDelay 1 (1 / 2)) = some 2000
    norm_num [getReconnectDelay]
  · norm_num

/-- One fifth of the nominal exponential backoff after k attempts:
min(30000, 1000 * 2 ^ k) equals 5 * backoffFifth k. -/
def backoffFifth (k : Nat) : Int := min 6000 (200 * 2 ^ k)

lemma backoffFifth_nonneg (k : Nat) : 0 ≤ backoffFifth k := by
  have h1 : (0 : Int) ≤ 200 * 2 ^ k := by positivity
  have h2 : (0 : Int) ≤ 6000 := by norm_num
  exact le_min h2 h1

lemma backoffFifth_mono (k : Nat) : backoffFifth k ≤ backoffFifth (k + 1) := by
  unfold backoffFifth
  have h : (200 : Int) * 2 ^ k ≤ 200 * 2 ^ (k + 1) := by
    have : (2 : Int) ^ k ≤ 2 ^ (k + 1) :=
      pow_le_pow_right₀ (by norm_num) (Nat.le_succ k)
    nlinarith
  exact min_le_min le_rfl h

/-- The nominal backoff of getReconnectDelay, cast to the rationals, is
five times backoffFifth. -/
lemma nominal_backoff_eq (k : Nat) :
    min (30000 : ℚ) (1000 * 2 ^ k) = ((5 * backoffFifth k : Int) : ℚ) := by
  unfold backoffFifth
  rcases le_total ((200 : Int) * 2 ^ k) 6000 with h | h
  · rw [min_eq_right h]
    have hq : (1000 : ℚ) * 2 ^ k ≤ 30000 := by
      have h2 : ((200 * 2 ^ k : Int) : ℚ) ≤ ((6000 : Int) : ℚ) := by
        exact_mod_cast h
      push_cast at h2
      linarith
    rw [min_eq_right hq]
    push_cast
    ring
  · rw [min_eq_left h]
    have hq : (30000 : ℚ) ≤ 1000 * 2 ^ k := by
      have h2 : ((6000 : Int) : ℚ) ≤ ((200 * 2 ^ k : Int) : ℚ) := by
        exact_mod_cast h
      push_cast at h2
      linarith
    rw [min_eq_left hq]
    norm_num

/-- The computed delay lies within plus or minus 20 percent of the nominal
backoff: between 4 and 6 times backoffFifth. -/
lemma getReconnectDelay_bounds (attempt : Nat) (r : ℚ) (h0 : 0 ≤ r)
    (h1 : r ≤ 1) :
    4 * backoffFifth attempt ≤ getReconnectDelay attempt r ∧
      getReconnectDelay attempt r ≤ 6 * backoffFifth attempt := by
  have hE := nominal_backoff_eq attempt
  have hEnn := backoffFifth_nonneg attempt
  have hxnn : (0 : ℚ) ≤ ((backoffFifth attempt : Int) : ℚ) := by
    exact_mod_cast hEnn
  unfold getReconnectDelay
  constructor
  · apply Int.le_floor.mpr
    rw [hE]
    push_cast
    nlinarith [mul_nonneg hxnn h0]
  · have hle : min (30000 : ℚ) (1000 * 2 ^ attempt) +
        min (30000 : ℚ) (1000 * 2 ^ attempt) * (1 / 5) * (r * 2 - 1) ≤
        ((6 * backoffFifth attempt : Int) : ℚ) := by
      rw [hE]
      push_cast
      nlinarith [mul_nonneg hxnn (sub_nonneg.mpr h1)]
    calc ⌊min (30000 : ℚ) (1000 * 2 ^ attempt) +
            min (30000 : ℚ) (1000 * 2 ^ attempt) * (1 / 5) * (r * 2 - 1)⌋
        ≤ ⌊((6 * backoffFifth attempt : Int) : ℚ)⌋ := Int.floor_le_floor hle
      _ = 6 * backoffFifth attempt := Int.floor_intCast _

/-- C8 amended: for the nth consecutive abnormal close (attempts-so-far n
below the maximum), the scheduled delay is computed from the exponent
n + 1, because the counter is incremented before the delay computation: it
lies within [0.8, 1.2] times min(30000, 1000 * 2 ^ (n + 1)) (stated as 4
to 6 times one fifth of that nominal backoff), and the nominal backoff is
non-decreasing in n, so successive delays are non-decreasing in
expectation. -/
theorem reconnect_backoff_bounds (n : Nat) (r : ℚ) (h0 : 0 ≤ r) (h1 : r ≤ 1)
    (hn : n < maxReconnectAttempts) :
    (socketOnClose (CloseEvent.mk 1006 false) n r).scheduledDelay =
        some (getReconnectDelay (n + 1) r) ∧
      ((5 * backoffFifth (n + 1) : Int) : ℚ) =
        min (30000 : ℚ) (1000 * 2 ^ (n + 1)) ∧
      4 * backoffFifth (n + 1) ≤ getReconnectDelay (n + 1) r ∧
      getReconnectDelay (n + 1) r ≤ 6 * backoffFifth (n + 1) ∧
      5 * backoffFifth (n + 1) ≤ 5 * backoffFifth (n + 2) := by
  have hb := getReconnectDelay_bounds (n + 1) r h0 h1
  refine ⟨?_, (nominal_backoff_eq (n + 1)).symm, hb.1, hb.2, ?_⟩
  · simp [socketOnClose, hn]
  · have h2 : backoffFifth (n + 1) ≤ backoffFifth (n + 2) := by
      simpa using backoffFifth_mono (n + 1)
    omega

/-- Witness for C8 amended at n = 0 and the median jitter draw: the delay
is 2000 ms, within [1600, 2400] around the nominal 2000 ms. -/
theorem reconnect_backoff_bounds_witness :
    (0 : ℚ) ≤ 1 / 2 ∧ (1 / 2 : ℚ) ≤ 1 ∧ 0 < maxReconnectAttempts ∧
      ((socketOnClose (CloseEvent.mk 1006 false) 0 (1 / 2)).scheduledDelay =
          some (getReconnectDelay (0 + 1) (1 / 2)) ∧
        ((5 * backoffFifth (0 + 1) : Int) : ℚ) =
          min (30000 : ℚ) (1000 * 2 ^ (0 + 1)) ∧
        4 * backoffFifth (0 + 1) ≤ getReconnectDelay (0 + 1) (1 / 2) ∧
        getReconnectDelay (0 + 1) (1 / 2) ≤ 6 * backoffFifth (0 + 1) ∧
        5 * backoffFifth (0 + 1) ≤ 5 * backoffFifth (0 + 2)) :=
  ⟨by norm_num, by norm_num, by decide,
    reconnect_backoff_bounds 0 (1 / 2) (by norm_num) (by norm_num)
      (by decide)⟩

/-- A point-in-time view of the two independent collections the hub keeps:
the size of the transport-level socket set wss.clients and the entries of
the separate clients metadata Map. -/
structure HubSnapshot where
  wssSize : Nat
  clients : List Client
  deriving DecidableEq

/-- The aggregate statistics object (server.js lines 271-297). -/
structure Stats where
  total : Nat
  byUserAgent : List (String × Nat)
  byIP : List (String × Nat)
  connectionAges : List Int
  deriving DecidableEq

/-- Incrementing one key of a grouped-count object: stats.byX[k] =
(stats.byX[k] or 0) + 1. -/
def bump (key : String) : List (String × Nat) → List (String × Nat)
  | [] => [(key, 1)]
  | kv :: rest =>
    if kv.1 = key then (kv.1, kv.2 + 1) :: rest else kv :: bump key rest

/-- The user-agent grouping key: a falsy userAgent counts as Unknown. -/
def uaKey (c : Client) : String :=
  if c.userAgent = "" then "Unknown" else c.userAgent

/-- The address grouping key: a falsy ip counts as Unknown. -/
def ipKey (c : Client) : String :=
  if c.ip = "" then "Unknown" else c.ip

/-- The loop of getClientStats over the entries of the clients Map
(server.js lines 281-294): bump the user-agent and address groupings and
push the age in whole seconds. -/
def statsLoop (now : Int) : List Client → Stats → Stats
  | [], st => st
  | c :: rest, st =>
    statsLoop now rest
      { st with
        byUserAgent := bump (uaKey c) st.byUserAgent
        byIP := bump (ipKey c) st.byIP
        connectionAges :=
          st.connectionAges ++ [Int.fdiv (now - c.connectedAt) 1000] }

/-- getClientStats (server.js lines 271-297): the total field is read from
the transport-level set wss.clients, while the groupings and the ages are
computed from the separate clients metadata Map. -/
def getClientStats (now : Int) (s : HubSnapshot) : Stats :=
  statsLoop now s.clients
    { total := s.wssSize, byUserAgent := [], byIP := [], connectionAges := [] }

/-- The sum of the counts of a grouped-count object. -/
def sumCounts (l : List (String × Nat)) : Nat := (l.map Prod.snd).sum

lemma sumCounts_bump (key : String) (l : List (String × Nat)) :
    sumCounts (bump key l) = sumCounts l + 1 := by
  induction l with
  | nil => rfl
  | cons kv rest ih =>
    by_cases h : kv.1 = key
    · simp [bump, h, sumCounts]
      omega
    · simp only [bump, h, if_neg, if_false, sumCounts, List.map_cons,
        List.sum_cons] at ih ⊢
      omega

lemma statsLoop_counts (now : Int) (cs : List Client) (st : Stats) :
    sumCounts (statsLoop now cs st).byUserAgent =
        sumCounts st.byUserAgent + cs.length ∧
      sumCounts (statsLoop now cs st).byIP = sumCounts st.byIP + cs.length ∧
      (statsLoop now cs st).connectionAges.length =
        st.connectionAges.length + cs.length ∧
      (statsLoop now cs st).total = st.total := by
  induction cs generalizing st with
  | nil => simp [statsLoop]
  | cons c rest ih =>
    have h := ih
      { st with
        byUserAgent := bump (uaKey c) st.byUserAgent
        byIP := bump (ipKey c) st.byIP
        connectionAges :=
          st.connectionAges ++ [Int.fdiv (now - c.connectedAt) 1000] }
    simp only [statsLoop] at h ⊢
    refine ⟨?_, ?_, ?_, ?_⟩
    · rw [h.1]
      simp [sumCounts_bump]
      omega
    · rw [h.2.1]
      simp [sumCounts_bump]
      omega
    · rw [h.2.2.1]
      simp
      omega
    · exact h.2.2.2

/-- C10: in every snapshot, the sum of the byUserAgent counts, the sum of
the byIP counts and the length of connectionAges all equal the number of
entries of the metadata Map, while the total field is the size of the
transport-level socket set; the two collections are maintained by
independent code paths, and a snapshot exists in which the sum differs
from the returned total. -/
theorem client_stats_consistency (now : Int) (s : HubSnapshot) :
    sumCounts (getClientStats now s).byUserAgent = s.clients.length ∧
      sumCounts (getClientStats now s).byIP = s.clients.length ∧
      (getClientStats now s).connectionAges.length = s.clients.length ∧
      (getClientStats now s).total = s.wssSize ∧
      ∃ s2 : HubSnapshot, ∃ now2 : Int,
        sumCounts (getClientStats now2 s2).byUserAgent ≠
          (getClientStats now2 s2).total := by
  have h := statsLoop_counts now s.clients
    { total := s.wssSize, byUserAgent := [], byIP := [], connectionAges := [] }
  refine ⟨?_, ?_, ?_, ?_, ⟨HubSnapshot.mk 1 [], 0, by decide⟩⟩
  · simpa [getClientStats, sumCounts] using h.1
  · simpa [getClientStats, sumCounts] using h.2.1
  · simpa [getClientStats] using h.2.2.1
  · simpa [getClientStats] using h.2.2.2

end FaceWS
